import Mathlib

/-!
Shallow embedding of the redisearch-go client's request-serialization layer
(src/redisearch/query.go) and of the bulk-indexing pipeline `Client.IndexOptions`.

Wire arguments (`redis.Args` in Go) are modelled by the inductive type `Arg`:
string tokens, integer tokens, floating-point tokens (Go float32 values are
rationals; NaN never arises in the claims checked here) and raw byte payloads.
Transport effects (`conn.Send`, `conn.Flush`, `conn.Receive`) are modelled by a
per-call error oracle `Conn`, indexed by call position, which captures exactly
the control flow of the pipeline: whether a given send/flush/receive call
reports an error.
-/

namespace RediSearchGo

/-- One wire argument: `redis.Args` elements are strings, integers,
floating-point numbers (modelled as rationals) or byte strings. -/
inductive Arg where
  | s (v : String)
  | n (v : Int)
  | r (v : Rat)
  | bytes (v : List Nat)
deriving DecidableEq, Repr

/-- Query flag bit (query.go line 16): treat terms verbatim. -/
def QueryVerbatim : Nat := 0x1

/-- Query flag bit (query.go line 19): return just IDs, no content. -/
def QueryNoContent : Nat := 0x2

/-- Query flag bit (query.go line 22): fetch document scores. -/
def QueryWithScores : Nat := 0x4

/-- Query flag bit (query.go line 25): terms must appear in order. -/
def QueryInOrder : Nat := 0x8

/-- Query flag bit (query.go line 28): fetch document payloads. -/
def QueryWithPayloads : Nat := 0x10

/-- Default paging offset (query.go line 32). -/
def DefaultOffset : Int := 0

/-- Default paging size (query.go line 33). -/
def DefaultNum : Int := 10

/-- `SortingKey` (query.go lines 39-42). -/
structure SortingKey where
  Field : String
  Ascending : Bool
deriving DecidableEq, Repr

/-- `SortingKey.Serialize` (query.go lines 51-59). -/
def SortingKey.Serialize (s : SortingKey) : List Arg :=
  [Arg.s s.Field] ++ (if s.Ascending then [Arg.s "ASC"] else [Arg.s "DESC"])

/-- `HighlightOptions` (query.go lines 63-66). The Go slice `Fields []string`
distinguishes nil from an empty slice, so it is modelled as `Option (List String)`
(`none` = nil slice, `some []` = empty but non-nil slice). -/
structure HighlightOptions where
  Fields : Option (List String)
  Tags : String × String
deriving DecidableEq, Repr

/-- `SummaryOptions` (query.go lines 70-75). `Fields` is a Go slice, see
`HighlightOptions.Fields` for the nil/empty encoding. -/
structure SummaryOptions where
  Fields : Option (List String)
  FragmentLen : Int
  NumFragments : Int
  Separator : String
deriving DecidableEq, Repr

/-- `Paging` (query.go lines 98-101). -/
structure Paging where
  Offset : Int
  Num : Int
deriving DecidableEq, Repr

/-- `Paging.serialize` (query.go lines 110-119): emit nothing when both
offset and num are the defaults, otherwise `LIMIT offset num`. -/
def Paging.serialize (p : Paging) : List Arg :=
  if ¬(p.Offset = DefaultOffset ∧ p.Num = DefaultNum) then
    [Arg.s "LIMIT", Arg.n p.Offset, Arg.n p.Num]
  else
    []

/-- `Query` (query.go lines 78-95). Go slices and pointers that the code
compares against nil are modelled with `Option`; the flag bitmask is a natural
number tested bitwise as in Go. `Slop` and `Payload` are carried but never
touched by `Query.serialize`, exactly as in the source. -/
structure Query where
  Raw : String
  Paging : Paging
  Flags : Nat
  Slop : Int
  InKeys : Option (List String)
  ReturnFields : Option (List String)
  Language : String
  Expander : String
  Scorer : String
  Payload : Option (List Nat)
  SortBy : Option SortingKey
  HighlightOpts : Option HighlightOptions
  SummarizeOpts : Option SummaryOptions
deriving DecidableEq, Repr

/-- `Query.serialize` (query.go lines 131-204), clause by clause in source
order. Go's `args = args.Add(x)` / `args.AddFlat(xs)` accumulator chain is the
concatenation of the emitted chunks in program order. -/
def Query.serialize (q : Query) : List Arg :=
  [Arg.s q.Raw]
  ++ q.Paging.serialize
  ++ (if q.Flags &&& QueryVerbatim ≠ 0 then [Arg.s "VERBATIM"] else [])
  ++ (if q.Flags &&& QueryNoContent ≠ 0 then [Arg.s "NOCONTENT"] else [])
  ++ (if q.Flags &&& QueryInOrder ≠ 0 then [Arg.s "INORDER"] else [])
  ++ (if q.Flags &&& QueryWithPayloads ≠ 0 then [Arg.s "WITHPAYLOADS"] else [])
  ++ (if q.Flags &&& QueryWithScores ≠ 0 then [Arg.s "WITHSCORES"] else [])
  ++ (match q.InKeys with
      | some ks => [Arg.s "INKEYS", Arg.n ks.length] ++ ks.map Arg.s
      | none => [])
  ++ (match q.ReturnFields with
      | some fs => [Arg.s "RETURN", Arg.n fs.length] ++ fs.map Arg.s
      | none => [])
  ++ (if q.Scorer ≠ "" then [Arg.s "SCORER", Arg.s q.Scorer] else [])
  ++ (if q.Language ≠ "" then [Arg.s "LANGUAGE", Arg.s q.Language] else [])
  ++ (if q.Expander ≠ "" then [Arg.s "EXPANDER", Arg.s q.Expander] else [])
  ++ (match q.SortBy with
      | some sk => [Arg.s "SORTBY"] ++ sk.Serialize
      | none => [])
  ++ (match q.HighlightOpts with
      | some h =>
        [Arg.s "HIGHLIGHT"]
        ++ (match h.Fields with
            | some fs =>
              if fs.length > 0 then [Arg.s "FIELDS", Arg.n fs.length] ++ fs.map Arg.s
              else []
            | none => [])
        ++ [Arg.s "TAGS", Arg.s h.Tags.1, Arg.s h.Tags.2]
      | none => [])
  ++ (match q.SummarizeOpts with
      | some so =>
        [Arg.s "SUMMARIZE"]
        ++ (match so.Fields with
            | some fs =>
              if fs.length > 0 then [Arg.s "FIELDS", Arg.n fs.length] ++ fs.map Arg.s
              else []
            | none => [])
        ++ (if so.FragmentLen > 0 then [Arg.s "LEN", Arg.n so.FragmentLen] else [])
        ++ (if so.NumFragments > 0 then [Arg.s "FRAGS", Arg.n so.NumFragments] else [])
        ++ (if so.Separator ≠ "" then [Arg.s "SEPARATOR", Arg.s so.Separator] else [])
      | none => [])

/-- Modelled from the spec: the `FieldType` constants are declared in a
repository file not present under `src/` (only `SerializeSchema`'s `switch`
over them is). The spec's data model lists text/numeric/tag descriptors and the
`switch` treats every other tag as a build error; the type tag is modelled as a
natural number with distinct named constants. -/
def TextField : Nat := 0

/-- Modelled from the spec: see `TextField`. -/
def NumericField : Nat := 1

/-- Modelled from the spec: a field-type tag that `SerializeSchema` does not
support (the geo type of the upstream client); any value other than
`TextField`, `NumericField`, `TagField` plays this role. -/
def GeoField : Nat := 2

/-- Modelled from the spec: see `TextField`. -/
def TagField : Nat := 3

/-- `TextFieldOptions`: options of a text field (weight, stemming, sortable,
indexed), consumed by `SerializeSchema` (query.go lines 327-347). The Go
`Weight` is a float32; float32 values are rationals, so it is modelled as `Rat`
(the comparisons with 0 and 1 performed by the code are exact either way). -/
structure TextFieldOptions where
  Weight : Rat
  Sortable : Bool
  NoStem : Bool
  NoIndex : Bool
deriving DecidableEq, Repr

/-- `NumericFieldOptions`, consumed by `SerializeSchema` (query.go lines 351-363). -/
structure NumericFieldOptions where
  Sortable : Bool
  NoIndex : Bool
deriving DecidableEq, Repr

/-- `TagFieldOptions`, consumed by `SerializeSchema` (query.go lines 366-381);
`Separator` is a Go byte, modelled as a natural number (0 = unset). -/
structure TagFieldOptions where
  Separator : Nat
  Sortable : Bool
  NoIndex : Bool
deriving DecidableEq, Repr

/-- The dynamic type of a field's `Options interface{}` value: the three
option structs that `SerializeSchema`'s type assertions
(`f.Options.(TextFieldOptions)` etc., query.go lines 328, 352, 367) test for. -/
inductive FieldOptions where
  | text (o : TextFieldOptions)
  | numeric (o : NumericFieldOptions)
  | tag (o : TagFieldOptions)
deriving DecidableEq, Repr

/-- A schema field: name, type tag and optional options value (`nil` in Go is
`none`). The struct itself is declared outside `src/`; its shape is fixed by
how `SerializeSchema` consumes it. -/
structure Field where
  Name : String
  «Type» : Nat
  Options : Option FieldOptions
deriving DecidableEq, Repr

/-- Global schema options consumed by `SerializeSchema` (query.go lines
304-318). `Stopwords` is a Go slice compared against nil, hence `Option`. -/
structure SchemaOptions where
  NoFieldFlags : Bool
  NoFrequencies : Bool
  NoOffsetVectors : Bool
  Stopwords : Option (List String)
deriving DecidableEq, Repr

/-- A schema: global options plus the ordered field list, as consumed by
`SerializeSchema`. -/
structure Schema where
  Options : SchemaOptions
  Fields : List Field
deriving DecidableEq, Repr

/-- The argument group one field contributes inside `SerializeSchema`'s field
loop (query.go lines 321-386): the `switch f.Type` with its per-type option
handling and type-assertion / unsupported-type errors. -/
def serializeField (f : Field) : Except String (List Arg) :=
  if f.«Type» = TextField then
    match f.Options with
    | none => Except.ok [Arg.s f.Name, Arg.s "TEXT"]
    | some (FieldOptions.text opts) =>
      Except.ok ([Arg.s f.Name, Arg.s "TEXT"]
        ++ (if opts.Weight ≠ 0 ∧ opts.Weight ≠ 1 then [Arg.s "WEIGHT", Arg.r opts.Weight] else [])
        ++ (if opts.NoStem then [Arg.s "NOSTEM"] else [])
        ++ (if opts.Sortable then [Arg.s "SORTABLE"] else [])
        ++ (if opts.NoIndex then [Arg.s "NOINDEX"] else []))
    | some _ => Except.error "Invalid text field options type"
  else if f.«Type» = NumericField then
    match f.Options with
    | none => Except.ok [Arg.s f.Name, Arg.s "NUMERIC"]
    | some (FieldOptions.numeric opts) =>
      Except.ok ([Arg.s f.Name, Arg.s "NUMERIC"]
        ++ (if opts.Sortable then [Arg.s "SORTABLE"] else [])
        ++ (if opts.NoIndex then [Arg.s "NOINDEX"] else []))
    | some _ => Except.error "Invalid numeric field options type"
  else if f.«Type» = TagField then
    match f.Options with
    | none => Except.ok [Arg.s f.Name, Arg.s "TAG"]
    | some (FieldOptions.tag opts) =>
      Except.ok ([Arg.s f.Name, Arg.s "TAG"]
        ++ (if opts.Separator ≠ 0 then
              [Arg.s "SEPARATOR", Arg.s (String.mk [Char.ofNat opts.Separator])] else [])
        ++ (if opts.Sortable then [Arg.s "SORTABLE"] else [])
        ++ (if opts.NoIndex then [Arg.s "NOINDEX"] else []))
    | some _ => Except.error "Invalid tag field options type"
  else
    Except.error "Unsupported field type"

/-- The field loop of `SerializeSchema` (query.go lines 321-386): appends each
field's argument group to the accumulator, aborting with the first field's
error. -/
def serializeFieldsFrom : List Field → List Arg → Except String (List Arg)
  | [], args => Except.ok args
  | f :: rest, args =>
    match serializeField f with
    | Except.error e => Except.error e
    | Except.ok fa => serializeFieldsFrom rest (args ++ fa)

/-- `SerializeSchema` (query.go lines 303-388): global index options, the
stopword clause, the literal `SCHEMA`, then the field groups in order. -/
def SerializeSchema (s : Schema) (args : List Arg) : Except String (List Arg) :=
  serializeFieldsFrom s.Fields
    (args
      ++ (if s.Options.NoFieldFlags then [Arg.s "NOFIELDS"] else [])
      ++ (if s.Options.NoFrequencies then [Arg.s "NOFREQS"] else [])
      ++ (if s.Options.NoOffsetVectors then [Arg.s "NOOFFSETS"] else [])
      ++ (match s.Options.Stopwords with
          | some sw =>
            [Arg.s "STOPWORDS", Arg.n sw.length]
            ++ (if sw.length > 0 then sw.map Arg.s else [])
          | none => [])
      ++ [Arg.s "SCHEMA"])

/-- `IndexingOptions`: options of document-add commands, consumed by
`SerializeIndexingOptions` (query.go lines 446-469). The struct is declared
outside `src/`; its five fields are fixed by that consumer. -/
structure IndexingOptions where
  NoSave : Bool
  Language : String
  Replace : Bool
  Partial : Bool
  ReplaceCondition : String
deriving DecidableEq, Repr

/-- `SerializeIndexingOptions` (query.go lines 446-469). The Go function
receives `opts` by value and sets `opts.Replace = true` when `opts.Partial`
holds before testing `opts.Replace`; the local update is modelled with a
shadowed `opts`. -/
def SerializeIndexingOptions (opts : IndexingOptions) (args : List Arg) : List Arg :=
  let args := args ++ (if opts.NoSave then [Arg.s "NOSAVE"] else [])
  let args := args ++ (if opts.Language ≠ "" then [Arg.s "LANGUAGE", Arg.s opts.Language] else [])
  let opts := if opts.Partial then { opts with Replace := true } else opts
  if opts.Replace then
    args ++ [Arg.s "REPLACE"]
      ++ (if opts.Partial then [Arg.s "PARTIAL"] else [])
      ++ (if opts.ReplaceCondition ≠ "" then [Arg.s "IF", Arg.s opts.ReplaceCondition] else [])
  else
    args

/-- A document as consumed by `Client.IndexOptions` (query.go lines 399-412):
id, score, optional payload and the field map. Go's `Properties` is a hash map;
it is modelled by the list of its entries, and every iteration over it receives
its (unspecified) iteration order as an explicit parameter. -/
structure Document where
  Id : String
  Score : Rat
  Payload : Option (List Nat)
  Properties : List (String × Arg)
deriving DecidableEq, Repr

/-- The `FT.ADD` argument list one document contributes in `Client.IndexOptions`
(query.go lines 400-412): index name, id, score, indexing options, optional
payload, the literal `FIELDS`, then the key/value pairs of the field map.
`fieldOrder` is the order in which Go's `for k, f := range doc.Properties`
happens to visit the map — an arbitrary permutation of `doc.Properties`. -/
def ftAddArgs (indexName : String) (opts : IndexingOptions) (doc : Document)
    (fieldOrder : List (String × Arg)) : List Arg :=
  let args := [Arg.s indexName, Arg.s doc.Id, Arg.r doc.Score]
  let args := SerializeIndexingOptions opts args
  let args := args ++ (match doc.Payload with
    | some p => [Arg.s "PAYLOAD", Arg.bytes p]
    | none => [])
  let args := args ++ [Arg.s "FIELDS"]
  args ++ fieldOrder.flatMap (fun kv => [Arg.s kv.1, kv.2])

/-- Modelled from the spec: `MultiError` and `NewMultiError` live in a
repository file not present under `src/`. Per the spec's data model and §4.5,
a `MultiError` is a fixed-length positional container, one slot per batch item,
each slot either absent (success) or a captured failure, and construction
allocates N absent slots. -/
abbrev MultiError := List (Option String)

/-- Modelled from the spec: `NewMultiError n` allocates `n` absent slots. -/
def NewMultiError (n : Nat) : MultiError := List.replicate n none

/-- The transport oracle for one `Client.IndexOptions` call: whether the send
for the document at a given position fails, whether the flush fails, and
whether the j-th receive (j = 0 is the reply to the first-sent document)
fails. This models the `redigo` connection's `Send`/`Flush`/`Receive` error
results, which are decided by the environment, not by this code. -/
structure Conn where
  sendErr : Nat → Option String
  flushErr : Option String
  recvErr : Nat → Option String

/-- The dynamic value of the `error` result of `Client.IndexOptions`: `nil`,
the flush error returned directly (query.go line 426), or a `MultiError`. -/
inductive IndexResult where
  | ok
  | flushFail (e : String)
  | multi (merr : List (Option String))
deriving DecidableEq, Repr

/-- The send loop of `Client.IndexOptions` (query.go lines 399-423), reduced to
its error control flow: scan positions `ii, ii+1, ...` (`rem` remaining) and
return the first position whose `conn.Send` fails, with its error. -/
def sendPhase (conn : Conn) : Nat → Nat → Option (Nat × String)
  | _, 0 => none
  | ii, rem + 1 =>
    match conn.sendErr ii with
    | some e => some (ii, e)
    | none => sendPhase conn (ii + 1) rem

/-- The receive loop of `Client.IndexOptions` (query.go lines 429-437): with
`N` documents sent, the Go counter `n` counts down from `N`; at counter value
`n` the call is the `(N - n)`-th receive and an error is stored at slot
`n - 1` of the (lazily allocated) `MultiError`. `merr = none` models the Go
`merr == nil` state. -/
def recvPhase (conn : Conn) (N : Nat) : Nat → Option (List (Option String)) → Option (List (Option String))
  | 0, merr => merr
  | n + 1, merr =>
    match conn.recvErr (N - (n + 1)) with
    | some e => recvPhase conn N n (some ((merr.getD (NewMultiError N)).set n (some e)))
    | none => recvPhase conn N n merr

/-- `Client.IndexOptions` (query.go lines 391-444): send each document's
command in order, aborting on the first send failure with a `MultiError`
holding that failure at the failing position; then flush, returning a flush
error directly; then drain one receive per successful send, recording receive
errors in the `MultiError`; return `nil` iff no error was ever recorded. -/
def Client.IndexOptions (conn : Conn) (docs : List Document) : IndexResult :=
  match sendPhase conn 0 docs.length with
  | some (ii, e) => IndexResult.multi ((NewMultiError docs.length).set ii (some e))
  | none =>
    match conn.flushErr with
    | some e => IndexResult.flushFail e
    | none =>
      match recvPhase conn docs.length docs.length none with
      | none => IndexResult.ok
      | some merr => IndexResult.multi merr

/-! Named copies of the clause chunks of `Query.serialize`, used to state
decomposition theorems; each is verbatim the corresponding chunk of the
definition above. -/

/-- The flag section of `Query.serialize` (query.go lines 134-150). -/
def flagsClause (q : Query) : List Arg :=
  (if q.Flags &&& QueryVerbatim ≠ 0 then [Arg.s "VERBATIM"] else [])
  ++ (if q.Flags &&& QueryNoContent ≠ 0 then [Arg.s "NOCONTENT"] else [])
  ++ (if q.Flags &&& QueryInOrder ≠ 0 then [Arg.s "INORDER"] else [])
  ++ (if q.Flags &&& QueryWithPayloads ≠ 0 then [Arg.s "WITHPAYLOADS"] else [])
  ++ (if q.Flags &&& QueryWithScores ≠ 0 then [Arg.s "WITHSCORES"] else [])

/-- The INKEYS section of `Query.serialize` (query.go lines 152-155). -/
def inKeysClause (q : Query) : List Arg :=
  match q.InKeys with
  | some ks => [Arg.s "INKEYS", Arg.n ks.length] ++ ks.map Arg.s
  | none => []

/-- The RETURN section of `Query.serialize` (query.go lines 157-160). -/
def returnClause (q : Query) : List Arg :=
  match q.ReturnFields with
  | some fs => [Arg.s "RETURN", Arg.n fs.length] ++ fs.map Arg.s
  | none => []

/-- The SCORER section of `Query.serialize` (query.go lines 162-164). -/
def scorerClause (q : Query) : List Arg :=
  if q.Scorer ≠ "" then [Arg.s "SCORER", Arg.s q.Scorer] else []

/-- The LANGUAGE section of `Query.serialize` (query.go lines 166-168). -/
def languageClause (q : Query) : List Arg :=
  if q.Language ≠ "" then [Arg.s "LANGUAGE", Arg.s q.Language] else []

/-- The EXPANDER section of `Query.serialize` (query.go lines 170-172). -/
def expanderClause (q : Query) : List Arg :=
  if q.Expander ≠ "" then [Arg.s "EXPANDER", Arg.s q.Expander] else []

/-- The SORTBY section of `Query.serialize` (query.go lines 174-176). -/
def sortByClause (q : Query) : List Arg :=
  match q.SortBy with
  | some sk => [Arg.s "SORTBY"] ++ sk.Serialize
  | none => []

/-- The HIGHLIGHT section of `Query.serialize` (query.go lines 178-185). -/
def highlightClause (q : Query) : List Arg :=
  match q.HighlightOpts with
  | some h =>
    [Arg.s "HIGHLIGHT"]
    ++ (match h.Fields with
        | some fs =>
          if fs.length > 0 then [Arg.s "FIELDS", Arg.n fs.length] ++ fs.map Arg.s
          else []
        | none => [])
    ++ [Arg.s "TAGS", Arg.s h.Tags.1, Arg.s h.Tags.2]
  | none => []

/-- The SUMMARIZE section of `Query.serialize` (query.go lines 187-202). -/
def summarizeClause (q : Query) : List Arg :=
  match q.SummarizeOpts with
  | some so =>
    [Arg.s "SUMMARIZE"]
    ++ (match so.Fields with
        | some fs =>
          if fs.length > 0 then [Arg.s "FIELDS", Arg.n fs.length] ++ fs.map Arg.s
          else []
        | none => [])
    ++ (if so.FragmentLen > 0 then [Arg.s "LEN", Arg.n so.FragmentLen] else [])
    ++ (if so.NumFragments > 0 then [Arg.s "FRAGS", Arg.n so.NumFragments] else [])
    ++ (if so.Separator ≠ "" then [Arg.s "SEPARATOR", Arg.s so.Separator] else [])
  | none => []

/-! Spec-side definitions, written from the specification's words, for the
refinement claims that compare the code's behaviour with the spec. -/

/-- Spec-side (spec §4.1, collections): a nil collection omits the whole
clause; a non-nil collection emits the clause keyword, a count token, then the
flattened elements (a count of 0 with no elements when empty). -/
def countClause (keyword : String) : Option (List String) → List Arg
  | none => []
  | some xs => [Arg.s keyword, Arg.n xs.length] ++ xs.map Arg.s

/-- Spec-side, amended for highlight/summarize field lists: the `FIELDS`
count clause is emitted only when the list is non-nil and non-empty; an
empty-but-non-nil list is omitted exactly like a nil one. -/
def specFieldList : Option (List String) → List Arg
  | none => []
  | some fs => if fs = [] then [] else [Arg.s "FIELDS", Arg.n fs.length] ++ fs.map Arg.s

/-- Spec-side (spec §4.1, flags): the canonical flag emission table, in the
fixed order verbatim, no-content, in-order, with-payloads, with-scores. -/
def flagTable : List (Nat × String) :=
  [(QueryVerbatim, "VERBATIM"), (QueryNoContent, "NOCONTENT"), (QueryInOrder, "INORDER"),
   (QueryWithPayloads, "WITHPAYLOADS"), (QueryWithScores, "WITHSCORES")]

/-- Spec-side: one literal token per set flag bit, in the canonical table
order; unset bits contribute nothing. -/
def canonicalFlagTokens (flags : Nat) : List Arg :=
  (flagTable.filter (fun p => flags &&& p.1 != 0)).map (fun p => Arg.s p.2)

/-- Spec-side (spec §4.1, indexing options): no-save, language, replace
(forced on by partial), partial, conditional-if, in that fixed order. -/
def specIndexingTokens (opts : IndexingOptions) : List Arg :=
  (if opts.NoSave then [Arg.s "NOSAVE"] else [])
  ++ (if opts.Language ≠ "" then [Arg.s "LANGUAGE", Arg.s opts.Language] else [])
  ++ (if opts.Replace ∨ opts.Partial then
        [Arg.s "REPLACE"]
        ++ (if opts.Partial then [Arg.s "PARTIAL"] else [])
        ++ (if opts.ReplaceCondition ≠ "" then [Arg.s "IF", Arg.s opts.ReplaceCondition] else [])
      else [])

/-- The trailing option tokens of a text field group (stemming, sortable,
indexed), i.e. everything after the optional WEIGHT clause (query.go lines
336-346). -/
def textTail (opts : TextFieldOptions) : List Arg :=
  (if opts.NoStem then [Arg.s "NOSTEM"] else [])
  ++ (if opts.Sortable then [Arg.s "SORTABLE"] else [])
  ++ (if opts.NoIndex then [Arg.s "NOINDEX"] else [])

/-- Whether a field options value has the dynamic type that the type assertion
of the given field-type case expects. -/
def optionsMatchType (t : Nat) : FieldOptions → Bool
  | FieldOptions.text _ => t == TextField
  | FieldOptions.numeric _ => t == NumericField
  | FieldOptions.tag _ => t == TagField

/-- Whether a serialization result is a build error. -/
def isError : Except String (List Arg) → Bool
  | Except.error _ => true
  | Except.ok _ => false

/-! Concrete example values used by counterexamples and witnesses. -/

/-- A query with every optional clause unset, as built by `NewQuery "hello"`
(query.go lines 123-129). -/
def baseQuery : Query :=
  { Raw := "hello", Paging := ⟨0, 10⟩, Flags := 0, Slop := 0, InKeys := none,
    ReturnFields := none, Language := "", Expander := "", Scorer := "",
    Payload := none, SortBy := none, HighlightOpts := none, SummarizeOpts := none }

/-- `baseQuery` with highlighting on an empty-but-non-nil field list. -/
def highlightEmptyFieldsQuery : Query :=
  { baseQuery with HighlightOpts := some ⟨some [], ("<b>", "</b>")⟩ }

/-- `baseQuery` with an empty scorer but a non-empty language and expander. -/
def scorerEmptyQuery : Query :=
  { baseQuery with
    Language := "italian"
    Expander := "myexpander"
    InKeys := some ["k1", "k2"] }

/-- `baseQuery` with an empty language but a non-empty scorer and expander. -/
def languageEmptyQuery : Query :=
  { baseQuery with
    Scorer := "DISMAX"
    Expander := "myexpander"
    SortBy := some ⟨"price", true⟩ }

/-- `baseQuery` with an empty expander but a non-empty scorer and language. -/
def expanderEmptyQuery : Query :=
  { baseQuery with
    Scorer := "DISMAX"
    Language := "english"
    Flags := 0x3 }

/-- A concrete document. -/
def docA : Document := ⟨"doc1", 1, none, [("title", Arg.s "Hello")]⟩

/-- A concrete document. -/
def docB : Document := ⟨"doc2", 1, none, [("title", Arg.s "World")]⟩

/-- A concrete document. -/
def docC : Document := ⟨"doc3", 1, none, [("title", Arg.s "Again")]⟩

/-- A two-document batch. -/
def twoDocs : List Document := [docA, docB]

/-- A three-document batch. -/
def threeDocs : List Document := [docA, docB, docC]

/-- A connection on which every send and the flush succeed and exactly the
first receive — the reply to the document at position 0 — fails. -/
def recvFailFirstConn : Conn :=
  ⟨fun _ => none, none, fun j => if j = 0 then some "Document rejected" else none⟩

/-- A connection on which the send at position 1 fails; the flush and receive
oracles also report failures, which the pipeline must never reach. -/
def sendFailConn : Conn :=
  ⟨fun i => if i = 1 then some "write refused" else none,
   some "flush failed", fun _ => some "receive failed"⟩

/-- A document with two fields in its field map. -/
def docTwoProps : Document := ⟨"d1", 1, none, [("a", Arg.s "1"), ("b", Arg.s "2")]⟩

/-- The default (all-unset) indexing options. -/
def plainIndexingOptions : IndexingOptions := ⟨false, "", false, false, ""⟩

/-- A text field with the default weight 1 and sortable set. -/
def textWeightOneField : Field :=
  ⟨"title", TextField, some (FieldOptions.text ⟨1, true, false, false⟩)⟩

/-- A text field with weight 0.5. -/
def textWeightHalfField : Field :=
  ⟨"body", TextField, some (FieldOptions.text ⟨1/2, false, false, false⟩)⟩

/-- A text field with an explicit weight of 0. -/
def textWeightZeroField : Field :=
  ⟨"note", TextField, some (FieldOptions.text ⟨0, false, false, false⟩)⟩

/-- A text field with weight 2. -/
def textWeightTwoField : Field :=
  ⟨"head", TextField, some (FieldOptions.text ⟨2, false, false, false⟩)⟩

/-- A text-typed field carrying numeric options: the type assertion in the
text case fails. -/
def mismatchField : Field :=
  ⟨"bad", TextField, some (FieldOptions.numeric ⟨false, false⟩)⟩

/-- A field whose type tag is none of text/numeric/tag. -/
def unknownTypeField : Field := ⟨"loc", GeoField, none⟩

/-- A schema containing `mismatchField`. -/
def mismatchSchema : Schema := ⟨⟨false, false, false, none⟩, [textWeightOneField, mismatchField]⟩

/-- A schema containing `unknownTypeField`. -/
def unknownTypeSchema : Schema := ⟨⟨false, false, false, none⟩, [unknownTypeField]⟩

/-! Theorems. -/

/-- Helper: `Query.serialize` is the concatenation of its named clause
sections in source order. -/
theorem serialize_decomp (q : Query) :
    q.serialize = [Arg.s q.Raw] ++ q.Paging.serialize ++ flagsClause q
      ++ inKeysClause q ++ returnClause q ++ scorerClause q ++ languageClause q
      ++ expanderClause q ++ sortByClause q ++ highlightClause q ++ summarizeClause q := by
  simp [Query.serialize, flagsClause, inKeysClause, returnClause, scorerClause,
    languageClause, expanderClause, sortByClause, highlightClause, summarizeClause,
    List.append_assoc]

/-- Helper: the canonical flag table emission, written as the five ordered
conditional tokens. -/
theorem canonicalFlagTokens_eq (flags : Nat) :
    canonicalFlagTokens flags =
      (if flags &&& QueryVerbatim ≠ 0 then [Arg.s "VERBATIM"] else [])
      ++ (if flags &&& QueryNoContent ≠ 0 then [Arg.s "NOCONTENT"] else [])
      ++ (if flags &&& QueryInOrder ≠ 0 then [Arg.s "INORDER"] else [])
      ++ (if flags &&& QueryWithPayloads ≠ 0 then [Arg.s "WITHPAYLOADS"] else [])
      ++ (if flags &&& QueryWithScores ≠ 0 then [Arg.s "WITHSCORES"] else []) := by
  by_cases h1 : flags &&& QueryVerbatim ≠ 0 <;>
    by_cases h2 : flags &&& QueryNoContent ≠ 0 <;>
    by_cases h3 : flags &&& QueryInOrder ≠ 0 <;>
    by_cases h4 : flags &&& QueryWithPayloads ≠ 0 <;>
    by_cases h5 : flags &&& QueryWithScores ≠ 0 <;>
    simp_all [canonicalFlagTokens, flagTable, List.filter_cons, bne_iff_ne]

/-- C4: `Paging.serialize` emits nothing exactly when `(Offset, Num)` is the
default `(0, 10)`, and otherwise emits the three tokens
`LIMIT Offset Num`, with the `LIMIT` token emitted exactly once. -/
theorem paging_limit_iff_nondefault (p : Paging) :
    p.serialize = (if p.Offset = DefaultOffset ∧ p.Num = DefaultNum then []
      else [Arg.s "LIMIT", Arg.n p.Offset, Arg.n p.Num])
    ∧ p.serialize.count (Arg.s "LIMIT")
        = (if p.Offset = DefaultOffset ∧ p.Num = DefaultNum then 0 else 1) := by
  by_cases h : p.Offset = DefaultOffset ∧ p.Num = DefaultNum <;>
    simp [Paging.serialize, h, List.count_cons]

/-- C5: `Query.serialize` emits the flag tokens exactly as the canonical
ordered table `flagTable` prescribes — one literal token per set flag bit, in
the fixed order VERBATIM, NOCONTENT, INORDER, WITHPAYLOADS, WITHSCORES,
between the paging section and the INKEYS section; unset flags produce no
token. -/
theorem query_flags_canonical_order (q : Query) :
    q.serialize = [Arg.s q.Raw] ++ q.Paging.serialize ++ canonicalFlagTokens q.Flags
      ++ inKeysClause q ++ returnClause q ++ scorerClause q ++ languageClause q
      ++ expanderClause q ++ sortByClause q ++ highlightClause q ++ summarizeClause q := by
  rw [serialize_decomp q, canonicalFlagTokens_eq q.Flags]
  simp [flagsClause, List.append_assoc]

/-- C10: the empty string is the unset sentinel for each of `Scorer`,
`Language` and `Expander` independently: for every query in which one of
these fields is the empty string, `Query.serialize` drops exactly that
field's clause from the concatenation — the other sections, including the
other two singular clauses, are untouched — so an empty-valued SCORER,
LANGUAGE or EXPANDER clause can never appear in the argument list. -/
theorem empty_sentinel_each_clause_omitted (q : Query) :
    (q.Scorer = "" → q.serialize = [Arg.s q.Raw] ++ q.Paging.serialize ++ flagsClause q
      ++ inKeysClause q ++ returnClause q ++ languageClause q ++ expanderClause q
      ++ sortByClause q ++ highlightClause q ++ summarizeClause q)
    ∧ (q.Language = "" → q.serialize = [Arg.s q.Raw] ++ q.Paging.serialize ++ flagsClause q
      ++ inKeysClause q ++ returnClause q ++ scorerClause q ++ expanderClause q
      ++ sortByClause q ++ highlightClause q ++ summarizeClause q)
    ∧ (q.Expander = "" → q.serialize = [Arg.s q.Raw] ++ q.Paging.serialize ++ flagsClause q
      ++ inKeysClause q ++ returnClause q ++ scorerClause q ++ languageClause q
      ++ sortByClause q ++ highlightClause q ++ summarizeClause q) := by
  refine ⟨fun hs => ?_, fun hl => ?_, fun he => ?_⟩ <;> rw [serialize_decomp q]
  · simp [scorerClause, hs, List.append_assoc]
  · simp [languageClause, hl, List.append_assoc]
  · simp [expanderClause, he, List.append_assoc]

/-- Witness for C10: each conjunct applied to a query in which only the
corresponding field is empty — the empty scorer's clause is omitted although
language and expander are set, and symmetrically for the other two. -/
theorem empty_sentinel_each_clause_omitted_witness :
    (scorerEmptyQuery.serialize = [Arg.s scorerEmptyQuery.Raw]
      ++ scorerEmptyQuery.Paging.serialize ++ flagsClause scorerEmptyQuery
      ++ inKeysClause scorerEmptyQuery ++ returnClause scorerEmptyQuery
      ++ languageClause scorerEmptyQuery ++ expanderClause scorerEmptyQuery
      ++ sortByClause scorerEmptyQuery ++ highlightClause scorerEmptyQuery
      ++ summarizeClause scorerEmptyQuery)
    ∧ (languageEmptyQuery.serialize = [Arg.s languageEmptyQuery.Raw]
      ++ languageEmptyQuery.Paging.serialize ++ flagsClause languageEmptyQuery
      ++ inKeysClause languageEmptyQuery ++ returnClause languageEmptyQuery
      ++ scorerClause languageEmptyQuery ++ expanderClause languageEmptyQuery
      ++ sortByClause languageEmptyQuery ++ highlightClause languageEmptyQuery
      ++ summarizeClause languageEmptyQuery)
    ∧ (expanderEmptyQuery.serialize = [Arg.s expanderEmptyQuery.Raw]
      ++ expanderEmptyQuery.Paging.serialize ++ flagsClause expanderEmptyQuery
      ++ inKeysClause expanderEmptyQuery ++ returnClause expanderEmptyQuery
      ++ scorerClause expanderEmptyQuery ++ languageClause expanderEmptyQuery
      ++ sortByClause expanderEmptyQuery ++ highlightClause expanderEmptyQuery
      ++ summarizeClause expanderEmptyQuery) :=
  ⟨(empty_sentinel_each_clause_omitted scorerEmptyQuery).1 rfl,
   (empty_sentinel_each_clause_omitted languageEmptyQuery).2.1 rfl,
   (empty_sentinel_each_clause_omitted expanderEmptyQuery).2.2 rfl⟩

/-- C3 counterexample: a query whose highlight options carry an
empty-but-non-nil field list. The claim says the FIELDS clause keyword is
still emitted with count token 0; the code omits the clause entirely — the
serialization contains no `FIELDS` token at all. -/
theorem highlight_empty_fields_clause_omitted :
    highlightEmptyFieldsQuery.HighlightOpts = some ⟨some [], ("<b>", "</b>")⟩
    ∧ Arg.s "FIELDS" ∉ highlightEmptyFieldsQuery.serialize
    ∧ highlightEmptyFieldsQuery.serialize =
        [Arg.s "hello", Arg.s "HIGHLIGHT", Arg.s "TAGS", Arg.s "<b>", Arg.s "</b>"] := by
  decide

/-- C3 (amended): nil omits the clause and empty-but-non-nil emits the
keyword with count token 0 for INKEYS, RETURN and the schema stopwords
(`countClause`); for the highlight and summarize field lists the FIELDS
clause is emitted only when the list is non-nil and non-empty
(`specFieldList`) — an empty-but-non-nil field list omits the clause exactly
like a nil one. -/
theorem nil_vs_empty_collections (q : Query) (s : Schema) (args : List Arg) :
    q.serialize = [Arg.s q.Raw] ++ q.Paging.serialize ++ flagsClause q
      ++ countClause "INKEYS" q.InKeys ++ countClause "RETURN" q.ReturnFields
      ++ scorerClause q ++ languageClause q ++ expanderClause q ++ sortByClause q
      ++ (match q.HighlightOpts with
          | some h => [Arg.s "HIGHLIGHT"] ++ specFieldList h.Fields
              ++ [Arg.s "TAGS", Arg.s h.Tags.1, Arg.s h.Tags.2]
          | none => [])
      ++ (match q.SummarizeOpts with
          | some so => [Arg.s "SUMMARIZE"] ++ specFieldList so.Fields
              ++ (if so.FragmentLen > 0 then [Arg.s "LEN", Arg.n so.FragmentLen] else [])
              ++ (if so.NumFragments > 0 then [Arg.s "FRAGS", Arg.n so.NumFragments] else [])
              ++ (if so.Separator ≠ "" then [Arg.s "SEPARATOR", Arg.s so.Separator] else [])
          | none => [])
    ∧ SerializeSchema s args = serializeFieldsFrom s.Fields
        (args ++ (if s.Options.NoFieldFlags then [Arg.s "NOFIELDS"] else [])
          ++ (if s.Options.NoFrequencies then [Arg.s "NOFREQS"] else [])
          ++ (if s.Options.NoOffsetVectors then [Arg.s "NOOFFSETS"] else [])
          ++ countClause "STOPWORDS" s.Options.Stopwords
          ++ [Arg.s "SCHEMA"]) := by
  constructor
  · rw [serialize_decomp q]
    have hin : inKeysClause q = countClause "INKEYS" q.InKeys := by
      unfold inKeysClause countClause
      match q.InKeys with
      | none => rfl
      | some ks => rfl
    have hret : returnClause q = countClause "RETURN" q.ReturnFields := by
      unfold returnClause countClause
      match q.ReturnFields with
      | none => rfl
      | some fs => rfl
    have hhl : highlightClause q = (match q.HighlightOpts with
        | some h => [Arg.s "HIGHLIGHT"] ++ specFieldList h.Fields
            ++ [Arg.s "TAGS", Arg.s h.Tags.1, Arg.s h.Tags.2]
        | none => []) := by
      cases hq : q.HighlightOpts with
      | none => simp [highlightClause, hq]
      | some h =>
        simp only [highlightClause, hq]
        cases hf : h.Fields with
        | none => simp [specFieldList]
        | some fs => cases fs <;> simp [specFieldList, List.append_assoc]
    have hsm : summarizeClause q = (match q.SummarizeOpts with
        | some so => [Arg.s "SUMMARIZE"] ++ specFieldList so.Fields
            ++ (if so.FragmentLen > 0 then [Arg.s "LEN", Arg.n so.FragmentLen] else [])
            ++ (if so.NumFragments > 0 then [Arg.s "FRAGS", Arg.n so.NumFragments] else [])
            ++ (if so.Separator ≠ "" then [Arg.s "SEPARATOR", Arg.s so.Separator] else [])
        | none => []) := by
      cases hq : q.SummarizeOpts with
      | none => simp [summarizeClause, hq]
      | some so =>
        simp only [summarizeClause, hq]
        cases hf : so.Fields with
        | none => simp [specFieldList]
        | some fs => cases fs <;> simp [specFieldList, List.append_assoc]
    rw [hin, hret, hhl, hsm]
  · unfold SerializeSchema
    have hsw : (match s.Options.Stopwords with
        | some sw =>
          [Arg.s "STOPWORDS", Arg.n sw.length] ++ (if sw.length > 0 then sw.map Arg.s else [])
        | none => ([] : List Arg)) = countClause "STOPWORDS" s.Options.Stopwords := by
      cases hq : s.Options.Stopwords with
      | none => rfl
      | some sw =>
        cases sw with
        | nil => rfl
        | cons x xs => simp [countClause]
    rw [hsw]

/-- C6: `SerializeIndexingOptions` never fails (it is a total function) and
appends, after the caller's arguments, exactly the tokens of
`specIndexingTokens`: NOSAVE, then LANGUAGE lang, then REPLACE, then PARTIAL,
then IF condition, each only when the corresponding option is set — and the
REPLACE group is emitted whenever `Replace` or `Partial` is set, so setting
`Partial` forces REPLACE even if the caller did not set `Replace`. -/
theorem indexing_options_fixed_order (opts : IndexingOptions) (args : List Arg) :
    SerializeIndexingOptions opts args = args ++ specIndexingTokens opts := by
  unfold SerializeIndexingOptions specIndexingTokens
  by_cases hp : opts.Partial <;> by_cases hr : opts.Replace <;>
    simp [hp, hr, List.append_assoc]

/-- Helper: if the sends at positions `start, …, start+i-1` succeed and the
send at position `start+i` fails with `e`, the send loop stops at `start+i`
(provided `i` is within the remaining count). -/
theorem sendPhase_first_fail (conn : Conn) (i : Nat) (e : String) :
    ∀ start rem, i < rem → (∀ j, j < i → conn.sendErr (start + j) = none) →
      conn.sendErr (start + i) = some e →
      sendPhase conn start rem = some (start + i, e) := by
  induction i with
  | zero =>
    intro start rem hrem hok hfail
    match rem, hrem with
    | rem + 1, _ =>
      simp only [Nat.add_zero] at hfail
      simp [sendPhase, hfail]
  | succ i ih =>
    intro start rem hrem hok hfail
    match rem, hrem with
    | rem + 1, _ =>
      have h0 : conn.sendErr start = none := by simpa using hok 0 (Nat.succ_pos i)
      have hstep : sendPhase conn (start + 1) rem = some (start + 1 + i, e) := by
        refine ih (start + 1) rem (by omega) ?_ ?_
        · intro j hj
          have := hok (j + 1) (by omega)
          simpa [Nat.add_assoc, Nat.add_comm 1 j] using this
        · have : start + 1 + i = start + (i + 1) := by omega
          rw [this]
          exact hfail
      have harg : start + 1 + i = start + (i + 1) := by omega
      simp [sendPhase, h0, hstep, harg]

/-- Helper: every slot of `(NewMultiError n).set i (some e)` other than `i`
is absent. -/
theorem newMultiError_set_other (n i j : Nat) (e : String) (hne : j ≠ i) :
    ((NewMultiError n).set i (some e)).getD j none = none := by
  rw [NewMultiError, List.getD, List.get?_eq_getElem?, List.getElem?_set_ne (by omega)]
  by_cases hj : j < n
  · simp [List.getElem?_replicate, hj]
  · rw [List.getElem?_eq_none]
    · rfl
    · simpa using Nat.le_of_not_lt hj

/-- C2: if the sends for positions before `i` succeed and the send for the
document at position `i` fails, `Client.IndexOptions` returns immediately —
the result does not depend on the flush, receive, or later-send behaviour of
the connection — with a `MultiError` whose length is the batch size, whose
slot `i` holds the failure, and whose every other slot is absent. -/
theorem send_failure_aborts_batch (conn : Conn) (docs : List Document) (i : Nat) (e : String)
    (hi : i < docs.length)
    (hok : ∀ j, j < i → conn.sendErr j = none)
    (hfail : conn.sendErr i = some e) :
    Client.IndexOptions conn docs
      = IndexResult.multi ((NewMultiError docs.length).set i (some e))
    ∧ ((NewMultiError docs.length).set i (some e)).length = docs.length
    ∧ ((NewMultiError docs.length).set i (some e)).getD i none = some e
    ∧ ∀ j, j ≠ i → ((NewMultiError docs.length).set i (some e)).getD j none = none := by
  refine ⟨?_, ?_, ?_, fun j hj => newMultiError_set_other docs.length i j e hj⟩
  · have hsp : sendPhase conn 0 docs.length = some (i, e) := by
      have := sendPhase_first_fail conn i e 0 docs.length hi
        (by intro j hj; simpa using hok j hj) (by simpa using hfail)
      simpa using this
    unfold Client.IndexOptions
    rw [hsp]
  · simp [NewMultiError]
  · simp [NewMultiError, List.getD, List.get?_eq_getElem?, List.getElem?_set_self,
      hi]

/-- Witness for C2: in a three-document batch whose connection fails the send
at position 1 (and whose flush and receives would all fail if ever reached),
the pipeline returns at once with the failure in slot 1 of a length-3
`MultiError`, slots 0 and 2 absent. -/
theorem send_failure_aborts_batch_witness :
    Client.IndexOptions sendFailConn threeDocs
      = IndexResult.multi ((NewMultiError threeDocs.length).set 1 (some "write refused"))
    ∧ ((NewMultiError threeDocs.length).set 1 (some "write refused")).length = threeDocs.length
    ∧ ((NewMultiError threeDocs.length).set 1 (some "write refused")).getD 1 none
        = some "write refused" := by
  have h := send_failure_aborts_batch sendFailConn threeDocs 1 "write refused"
    (by decide)
    (by intro j hj; interval_cases j; rfl)
    rfl
  exact ⟨h.1, h.2.1, h.2.2.1⟩

/-- C1: the claim says a receive failure for the document at position `k` is
recorded at `MultiError` slot `k`. On a two-document batch where exactly the
first receive — the reply to the document at position 0 — fails, the code
records the failure at slot 1, not slot 0: the receive loop indexes the
`MultiError` with its countdown counter (`merr[n-1]`), which runs opposite to
the receive order. Draining does continue (the second receive is consumed and
its success leaves slot 0 absent), and exactly one slot is populated — but it
is slot `N-1-k`, not slot `k`. -/
theorem receive_failure_slot_reversed :
    Client.IndexOptions recvFailFirstConn twoDocs
      = IndexResult.multi [none, some "Document rejected"]
    ∧ Client.IndexOptions recvFailFirstConn twoDocs
      ≠ IndexResult.multi [some "Document rejected", none] := by
  decide

/-- C7 counterexample: the per-document FT.ADD argument list is not a
function of the document value alone. Go iterates the `Properties` hash map in
an unspecified order; for a document with two fields, the two iteration orders
— both permutations of the same map entries — yield different ordered argument
lists. -/
theorem ftAdd_field_order_nondeterministic :
    List.Perm [("b", Arg.s "2"), ("a", Arg.s "1")] docTwoProps.Properties
    ∧ ftAddArgs "idx" plainIndexingOptions docTwoProps docTwoProps.Properties
      ≠ ftAddArgs "idx" plainIndexingOptions docTwoProps [("b", Arg.s "2"), ("a", Arg.s "1")] := by
  decide

/-- C7 (amended): serialization is pure and (for queries, schemas and
indexing options) a deterministic function of its input; the per-document
FT.ADD argument list is deterministic only up to the order of the FIELDS
key/value pairs: for any two iteration orders of the document's field map the
resulting argument lists are permutations of each other, identical outside the
FIELDS pairs. -/
theorem ftAdd_deterministic_up_to_field_order
    (indexName : String) (opts : IndexingOptions) (doc : Document)
    (o₁ o₂ : List (String × Arg))
    (h₁ : List.Perm o₁ doc.Properties) (h₂ : List.Perm o₂ doc.Properties) :
    List.Perm (ftAddArgs indexName opts doc o₁) (ftAddArgs indexName opts doc o₂) := by
  unfold ftAddArgs
  exact List.Perm.append_left _ ((h₁.trans h₂.symm).flatMap_right _)

/-- Witness for C7 (amended) at the two iteration orders of the
two-field document. -/
theorem ftAdd_deterministic_up_to_field_order_witness :
    List.Perm (ftAddArgs "idx" plainIndexingOptions docTwoProps docTwoProps.Properties)
      (ftAddArgs "idx" plainIndexingOptions docTwoProps [("b", Arg.s "2"), ("a", Arg.s "1")]) :=
  ftAdd_deterministic_up_to_field_order "idx" plainIndexingOptions docTwoProps
    docTwoProps.Properties [("b", Arg.s "2"), ("a", Arg.s "1")]
    (List.Perm.refl _) (by decide)

/-- Helper: a field whose options value has a dynamic type not matching its
field type makes `serializeField` fail (either through the failed type
assertion of its case, or through the unsupported-type default). -/
theorem serializeField_mismatch (f : Field) (o : FieldOptions)
    (ho : f.Options = some o) (hm : optionsMatchType f.«Type» o = false) :
    isError (serializeField f) = true := by
  by_cases h1 : f.«Type» = TextField <;>
    by_cases h2 : f.«Type» = NumericField <;>
    by_cases h3 : f.«Type» = TagField <;>
    cases o <;>
    simp_all [optionsMatchType, isError, serializeField]

/-- Helper: a field whose type tag is none of text/numeric/tag makes
`serializeField` fail with the unsupported-type error. -/
theorem serializeField_unknown_type (f : Field)
    (h1 : f.«Type» ≠ TextField) (h2 : f.«Type» ≠ NumericField) (h3 : f.«Type» ≠ TagField) :
    serializeField f = Except.error "Unsupported field type" := by
  unfold serializeField
  rw [if_neg h1, if_neg h2, if_neg h3]

/-- Helper: the field loop propagates any member field's serialization error:
a failing field is never silently skipped. -/
theorem serializeFieldsFrom_error (l : List Field) (args : List Arg) (f : Field)
    (hf : f ∈ l) (he : isError (serializeField f) = true) :
    isError (serializeFieldsFrom l args) = true := by
  induction l generalizing args with
  | nil => cases hf
  | cons g rest ih =>
    cases hg : serializeField g with
    | error e => simp [serializeFieldsFrom, hg, isError]
    | ok fa =>
      rcases List.mem_cons.mp hf with rfl | hmem
      · rw [hg] at he
        simp [isError] at he
      · simpa [serializeFieldsFrom, hg] using ih (args ++ fa) hmem

/-- C8: in schema serialization, a text field with the default weight 1 emits
no WEIGHT token (its group is exactly name, TEXT, and the weight-free tail),
a text field with weight 0.5 always emits `WEIGHT 0.5`, and a field whose
options value does not match its declared type — or whose type is none of
text, numeric, tag — makes `SerializeSchema` return a build error instead of
silently skipping the field. -/
theorem schema_weight_and_build_errors :
    (∀ (f : Field) (opts : TextFieldOptions), f.«Type» = TextField →
        f.Options = some (FieldOptions.text opts) → opts.Weight = 1 →
        serializeField f = Except.ok ([Arg.s f.Name, Arg.s "TEXT"] ++ textTail opts))
    ∧ (∀ (f : Field) (opts : TextFieldOptions), f.«Type» = TextField →
        f.Options = some (FieldOptions.text opts) → opts.Weight = 1/2 →
        serializeField f
          = Except.ok ([Arg.s f.Name, Arg.s "TEXT", Arg.s "WEIGHT", Arg.r (1/2)] ++ textTail opts))
    ∧ (∀ opts : TextFieldOptions, Arg.s "WEIGHT" ∉ textTail opts)
    ∧ (∀ (s : Schema) (args : List Arg) (f : Field) (o : FieldOptions), f ∈ s.Fields →
        f.Options = some o → optionsMatchType f.«Type» o = false →
        isError (SerializeSchema s args) = true)
    ∧ (∀ (s : Schema) (args : List Arg) (f : Field), f ∈ s.Fields →
        f.«Type» ≠ TextField → f.«Type» ≠ NumericField → f.«Type» ≠ TagField →
        isError (SerializeSchema s args) = true) := by
  refine ⟨?_, ?_, ?_, ?_, ?_⟩
  · intro f opts h1 h2 hw
    have hcond : ¬(opts.Weight ≠ 0 ∧ opts.Weight ≠ 1) := by simp [hw]
    simp [serializeField, h1, h2, hcond, textTail, List.append_assoc]
  · intro f opts h1 h2 hw
    have hcond : opts.Weight ≠ 0 ∧ opts.Weight ≠ 1 := by rw [hw]; constructor <;> norm_num
    simp [serializeField, h1, h2, hcond, hw, textTail, List.append_assoc]
  · intro opts
    unfold textTail
    split_ifs <;> decide
  · intro s args f o hf ho hm
    exact serializeFieldsFrom_error s.Fields _ f hf (serializeField_mismatch f o ho hm)
  · intro s args f hf h1 h2 h3
    refine serializeFieldsFrom_error s.Fields _ f hf ?_
    rw [serializeField_unknown_type f h1 h2 h3]
    rfl

/-- Witness for C8 at concrete fields and schemas: a weight-1 text field, a
weight-0.5 text field, a text-typed field carrying numeric options, and a
geo-typed field. -/
theorem schema_weight_and_build_errors_witness :
    serializeField textWeightOneField
      = Except.ok ([Arg.s textWeightOneField.Name, Arg.s "TEXT"]
          ++ textTail ⟨1, true, false, false⟩)
    ∧ serializeField textWeightHalfField
      = Except.ok ([Arg.s textWeightHalfField.Name, Arg.s "TEXT", Arg.s "WEIGHT", Arg.r (1/2)]
          ++ textTail ⟨1/2, false, false, false⟩)
    ∧ Arg.s "WEIGHT" ∉ textTail ⟨1, true, false, false⟩
    ∧ isError (SerializeSchema mismatchSchema []) = true
    ∧ isError (SerializeSchema unknownTypeSchema []) = true := by
  obtain ⟨c1, c2, c3, c4, c5⟩ := schema_weight_and_build_errors
  exact ⟨c1 textWeightOneField ⟨1, true, false, false⟩ rfl rfl rfl,
    c2 textWeightHalfField ⟨1/2, false, false, false⟩ rfl rfl rfl,
    c3 ⟨1, true, false, false⟩,
    c4 mismatchSchema [] mismatchField (FieldOptions.numeric ⟨false, false⟩)
      (by decide) rfl (by decide),
    c5 unknownTypeSchema [] unknownTypeField (by decide) (by decide) (by decide) (by decide)⟩

/-- C9: a text field whose options have weight 0 is serialized exactly like
one with the default weight — no WEIGHT token is emitted — so an explicit
weight of 0 cannot be serialized; a WEIGHT token is emitted exactly for
weights different from both 0 and 1. -/
theorem weight_zero_treated_as_default :
    (∀ (f : Field) (opts : TextFieldOptions), f.«Type» = TextField →
        f.Options = some (FieldOptions.text opts) → opts.Weight = 0 →
        serializeField f = Except.ok ([Arg.s f.Name, Arg.s "TEXT"] ++ textTail opts))
    ∧ (∀ (f : Field) (opts : TextFieldOptions), f.«Type» = TextField →
        f.Options = some (FieldOptions.text opts) → opts.Weight ≠ 0 → opts.Weight ≠ 1 →
        serializeField f
          = Except.ok ([Arg.s f.Name, Arg.s "TEXT", Arg.s "WEIGHT", Arg.r opts.Weight]
              ++ textTail opts)) := by
  constructor
  · intro f opts h1 h2 hw
    have hcond : ¬(opts.Weight ≠ 0 ∧ opts.Weight ≠ 1) := by simp [hw]
    simp [serializeField, h1, h2, hcond, textTail, List.append_assoc]
  · intro f opts h1 h2 hw0 hw1
    have hcond : opts.Weight ≠ 0 ∧ opts.Weight ≠ 1 := ⟨hw0, hw1⟩
    simp [serializeField, h1, h2, hcond, textTail, List.append_assoc]

/-- Witness for C9 at a weight-0 and a weight-2 text field. -/
theorem weight_zero_treated_as_default_witness :
    serializeField textWeightZeroField
      = Except.ok ([Arg.s textWeightZeroField.Name, Arg.s "TEXT"]
          ++ textTail ⟨0, false, false, false⟩)
    ∧ serializeField textWeightTwoField
      = Except.ok ([Arg.s textWeightTwoField.Name, Arg.s "TEXT", Arg.s "WEIGHT", Arg.r 2]
          ++ textTail ⟨2, false, false, false⟩) := by
  obtain ⟨c1, c2⟩ := weight_zero_treated_as_default
  exact ⟨c1 textWeightZeroField ⟨0, false, false, false⟩ rfl rfl rfl,
    c2 textWeightTwoField ⟨2, false, false, false⟩ rfl rfl (by norm_num) (by norm_num)⟩

end RediSearchGo
